import Mathlib

/-!
Verification of the Abort expression node of the VRL compiler
(src/lib/vrl/compiler/src/expression/abort.rs).

Only abort.rs is available as source; the surrounding compiler types
(values, errors, type descriptors, contexts, child expressions) are
modelled from the specification at their interface boundary and are
marked as such in their doc comments.  All behavior of the Abort node
itself (construction checks, scalar resolve, batch resolve, type_def,
diagnostics) is translated directly from abort.rs.
-/

namespace Vrl

/-- Modelled from the spec: a lexical source span attached to AST nodes and
diagnostics. -/
structure Span where
  start : Nat
  stop : Nat
deriving DecidableEq, Repr

/-- Modelled from the spec: the runtime value tagged union, restricted to the
representative shapes the Abort node can meet (string/bytes, integer,
boolean, null). -/
inductive Value
  | bytes (b : List Nat)
  | integer (i : Int)
  | boolean (b : Bool)
  | null
deriving DecidableEq, Repr

/-- Modelled from the spec: the runtime failure tagged union.  The `abort`
variant carries the source span of the aborting construct and an optional
message; `error` stands for every other runtime failure kind (value
conversion failures, missing fields, ...), which the spec leaves to other
node kinds. -/
inductive ExpressionError
  | abort (span : Span) (message : Option String)
  | error (msg : String)
deriving DecidableEq, Repr

/-- True exactly on the Abort variant of `ExpressionError`. -/
def ExpressionError.isAbort : ExpressionError → Bool
  | .abort _ _ => true
  | .error _ => false

/-- The per-record evaluation outcome (`Resolved` in the source). -/
abbrev Resolved := Except ExpressionError Value

instance {ε α : Type} [DecidableEq ε] [DecidableEq α] :
    DecidableEq (Except ε α) := fun a b =>
  match a, b with
  | .ok x, .ok y =>
    if h : x = y then .isTrue (by rw [h])
    else .isFalse (fun hc => by cases hc; exact h rfl)
  | .ok _, .error _ => .isFalse (fun hc => by cases hc)
  | .error _, .ok _ => .isFalse (fun hc => by cases hc)
  | .error x, .error y =>
    if h : x = y then .isTrue (by rw [h])
    else .isFalse (fun hc => by cases hc; exact h rfl)

/-- The replacement character U+FFFD used by lossy UTF-8 decoding. -/
def replChar : Char := Char.ofNat 0xFFFD

/-- A UTF-8 continuation byte: 0x80 ..= 0xBF. -/
def contByte (b : Nat) : Bool := 0x80 ≤ b && b ≤ 0xBF

/-- Decode one UTF-8 sequence starting at lead byte `b0` with remaining
bytes `rest`: return the decoded character (or the replacement character
for a maximal invalid subpart) and the bytes left to decode. -/
def utf8Step (b0 : Nat) (rest : List Nat) : Char × List Nat :=
  if b0 < 0x80 then
    (Char.ofNat b0, rest)
  else if b0 < 0xC2 then
    (replChar, rest)
  else if b0 ≤ 0xDF then
    match rest with
    | [] => (replChar, [])
    | b1 :: rest1 =>
      if contByte b1 then
        (Char.ofNat ((b0 - 0xC0) * 64 + (b1 - 0x80)), rest1)
      else
        (replChar, b1 :: rest1)
  else if b0 ≤ 0xEF then
    match rest with
    | [] => (replChar, [])
    | b1 :: rest1 =>
      if (if b0 = 0xE0 then (0xA0 ≤ b1 && b1 ≤ 0xBF)
          else if b0 = 0xED then (0x80 ≤ b1 && b1 ≤ 0x9F)
          else contByte b1) then
        match rest1 with
        | [] => (replChar, [])
        | b2 :: rest2 =>
          if contByte b2 then
            (Char.ofNat ((b0 - 0xE0) * 4096 + (b1 - 0x80) * 64 + (b2 - 0x80)), rest2)
          else
            (replChar, b2 :: rest2)
      else
        (replChar, b1 :: rest1)
  else if b0 ≤ 0xF4 then
    match rest with
    | [] => (replChar, [])
    | b1 :: rest1 =>
      if (if b0 = 0xF0 then (0x90 ≤ b1 && b1 ≤ 0xBF)
          else if b0 = 0xF4 then (0x80 ≤ b1 && b1 ≤ 0x8F)
          else contByte b1) then
        match rest1 with
        | [] => (replChar, [])
        | b2 :: rest2 =>
          if contByte b2 then
            match rest2 with
            | [] => (replChar, [])
            | b3 :: rest3 =>
              if contByte b3 then
                (Char.ofNat ((b0 - 0xF0) * 262144 + (b1 - 0x80) * 4096 +
                    (b2 - 0x80) * 64 + (b3 - 0x80)), rest3)
              else
                (replChar, b3 :: rest3)
          else
            (replChar, b2 :: rest2)
      else
        (replChar, b1 :: rest1)
  else
    (replChar, rest)

/-- The step function never lengthens the remaining byte list. -/
theorem utf8Step_length_le (b0 : Nat) (rest : List Nat) :
    (utf8Step b0 rest).2.length ≤ rest.length := by
  unfold utf8Step
  repeat' split
  all_goals simp_all
  all_goals omega

/-- Modelled from the spec: lossy UTF-8 decoding of a byte sequence
(the behavior of String::from_utf8_lossy): well-formed sequences decode to
their scalar value, every maximal invalid subpart is replaced by U+FFFD and
decoding continues with the next byte.  The fuel argument bounds the number
of decoded sequences; since every step consumes at least the lead byte,
fuel equal to the byte count is always enough. -/
def fromUtf8LossyGo : Nat → List Nat → List Char
  | _, [] => []
  | 0, _ :: _ => []
  | fuel + 1, b0 :: rest =>
    (utf8Step b0 rest).1 :: fromUtf8LossyGo fuel (utf8Step b0 rest).2

/-- Lossy UTF-8 conversion of a byte sequence to a string. -/
def fromUtf8Lossy (b : List Nat) : String :=
  String.mk (fromUtf8LossyGo b.length b)

/-- Modelled from the spec: `try_bytes_utf8_lossy` of the value-conversion
interface: on a string/bytes value it succeeds with the lossy UTF-8
conversion; on every other shape it reports a (non-Abort) conversion
error. -/
def Value.try_bytes_utf8_lossy : Value → Except ExpressionError String
  | .bytes b => .ok (fromUtf8Lossy b)
  | _ => .error (.error "expected bytes value")

/-- Modelled from the spec: a shape set (`Kind`), restricted to the
representative shapes used here; the empty set is the bottom shape
"never". -/
structure Kind where
  bytes : Bool
  integer : Bool
  boolean : Bool
  null : Bool
deriving DecidableEq, Repr

/-- The bottom shape set "never": no shape is permitted. -/
def Kind.never : Kind := ⟨false, false, false, false⟩

/-- The shape set contains the string shape exclusively. -/
def Kind.is_bytes (k : Kind) : Bool :=
  k.bytes && !k.integer && !k.boolean && !k.null

/-- Modelled from the spec: human-readable rendering of a shape set, used in
diagnostic labels. -/
def Kind.display (k : Kind) : String :=
  let names :=
    (if k.bytes then ["string"] else []) ++
    (if k.integer then ["integer"] else []) ++
    (if k.boolean then ["boolean"] else []) ++
    (if k.null then ["null"] else [])
  if names.isEmpty then "never" else String.intercalate " or " names

/-- Modelled from the spec: the static type descriptor of an expression: a
set of permitted value shapes plus a fallibility flag. -/
structure TypeDef where
  fallible : Bool
  kind : Kind
deriving DecidableEq, Repr

/-- Whether the descriptor is marked fallible. -/
def TypeDef.is_fallible (t : TypeDef) : Bool := t.fallible

/-- Whether the descriptor permits the string shape exclusively. -/
def TypeDef.is_bytes (t : TypeDef) : Bool := t.kind.is_bytes

/-- The descriptor whose shape set is "never". -/
def TypeDef.never : TypeDef := ⟨false, Kind.never⟩

/-- Clears the fallibility flag of a descriptor. -/
def TypeDef.infallible (t : TypeDef) : TypeDef := { t with fallible := false }

/-- Conversion of a descriptor to its shape set (the `type_def.into()` of the source used when building the NonString diagnostic). -/
def TypeDef.into_kind (t : TypeDef) : Kind := t.kind

/-- Modelled from the spec: the compile-time local environment; opaque at
the boundary of the Abort node. -/
structure LocalEnv where
deriving DecidableEq, Repr

/-- Modelled from the spec: the compile-time external environment; opaque at
the boundary of the Abort node. -/
structure ExternalEnv where
deriving DecidableEq, Repr

/-- Modelled from the spec: the single-record evaluation environment;
the Abort node never inspects it, only passes it to the message
expression. -/
structure Context where
  record : Value
deriving DecidableEq, Repr

/-- Modelled from the spec: the batch evaluation environment: an ordered
sequence of in-flight per-record outcomes (`resolved_values` in the
source). -/
structure BatchContext where
  resolved_values : List Resolved
deriving DecidableEq, Repr

/-- Modelled from the spec: the expression-node contract of a child
expression at the interface boundary: its static type descriptor, a scalar
resolve (which may update the context), and a batch resolve acting on the
ordered per-record outcome sequence of the batch. -/
structure Expr where
  type_def : LocalEnv × ExternalEnv → TypeDef
  resolve : Context → Resolved × Context
  resolve_batch : List Resolved → List Resolved

/-- Modelled from the spec: a parser AST node pairing a span with its
contents. -/
structure Node (α : Type) where
  span : Span
  node : α

/-- The `Node::take` of the source: split a parser node into span and contents. -/
def Node.take {α : Type} (n : Node α) : Span × α := (n.span, n.node)

/-- The Abort expression node (struct Abort of abort.rs). -/
structure Abort where
  span : Span
  message : Option Expr

/-- The construction error variants of abort.rs. -/
inductive ErrorVariant
  | fallibleExpr
  | nonString (kind : Kind)
deriving DecidableEq, Repr

/-- The construction error of abort.rs: a variant plus the span of the
offending message expression. -/
structure Error where
  variant : ErrorVariant
  expr_span : Span
deriving DecidableEq, Repr

/-- `Abort::new` of abort.rs: an optional message expression is validated
against its static type descriptor; a fallible descriptor is rejected
first, then a descriptor whose shape set is not exclusively string. -/
def Abort.new (span : Span) (message : Option (Node Expr))
    (state : LocalEnv × ExternalEnv) : Except Error Abort :=
  match message with
  | none => .ok ⟨span, none⟩
  | some n =>
    let (expr_span, expr) := n.take
    let type_def := expr.type_def state
    if type_def.is_fallible then
      .error ⟨.fallibleExpr, expr_span⟩
    else if !type_def.is_bytes then
      .error ⟨.nonString type_def.into_kind, expr_span⟩
    else
      .ok ⟨span, some expr⟩

/-- `Abort::resolve` of abort.rs: evaluate the message expression if
present, convert its value with the lossy UTF-8 conversion, and return the
Abort error; an inner failure of the message computation is propagated by
the question-mark operator. -/
def Abort.resolve (a : Abort) (ctx : Context) : Resolved × Context :=
  match a.message with
  | none => (.error (.abort a.span none), ctx)
  | some expr =>
    match expr.resolve ctx with
    | (.error e, ctx1) => (.error e, ctx1)
    | (.ok v, ctx1) =>
      match v.try_bytes_utf8_lossy with
      | .error e => (.error e, ctx1)
      | .ok s => (.error (.abort a.span (some s)), ctx1)

/-- The per-slot message closure of `Abort::resolve_batch`: the moved-out
outcome of a slot is converted to an optional message string
(`Ok(Some(resolved?.try_bytes_utf8_lossy()?.to_string()))`), a failure
staying a failure. -/
def slotMessage : Resolved → Except ExpressionError (Option String)
  | .error e => .error e
  | .ok v =>
    match v.try_bytes_utf8_lossy with
    | .error e => .error e
    | .ok s => .ok (some s)

/-- The final per-slot write of `Abort::resolve_batch`
(`message.and_then(Err(ExpressionError::Abort))`): a successful message
computation becomes an Abort error carrying it, a failed one keeps its
inner error. -/
def slotAbort (span : Span) (m : Except ExpressionError (Option String)) : Resolved :=
  match m with
  | .error e => .error e
  | .ok message => .error (.abort span message)

/-- `Abort::resolve_batch` of abort.rs: with a message expression, first
batch-resolve it, then move the outcome of each slot out (leaving the Null
placeholder) and compute the per-slot message result; finally every slot is
overwritten with `message_result.and_then(Err(Abort))`. -/
def Abort.resolve_batch (a : Abort) (ctx : BatchContext) : BatchContext :=
  match a.message with
  | some expr =>
    let vals := expr.resolve_batch ctx.resolved_values
    let messages := vals.map slotMessage
    ⟨(vals.zip messages).map fun p => slotAbort a.span p.2⟩
  | none =>
    let messages : List (Except ExpressionError (Option String)) :=
      ctx.resolved_values.map fun _ => .ok none
    ⟨(ctx.resolved_values.zip messages).map fun p => slotAbort a.span p.2⟩

/-- `Abort::type_def` of abort.rs: always the "never" descriptor with the
fallibility flag cleared. -/
def Abort.type_def (_ : Abort) (_ : LocalEnv × ExternalEnv) : TypeDef :=
  TypeDef.never.infallible

/-- The Display impl of abort.rs. -/
def Abort.display (_ : Abort) : String := "abort"

/-- Modelled from the spec: a labeled source span of a diagnostic
(primary = where the violation is, context = remediation hint). -/
inductive Label
  | primary (message : String) (span : Span)
  | context (message : String) (span : Span)
deriving DecidableEq, Repr

/-- Modelled from the spec: an explanatory note of a diagnostic. -/
inductive Note
  | seeErrorDocs
  | coerceValue
  | seeDocs (topic : String) (url : String)
deriving DecidableEq, Repr

/-- `DiagnosticMessage::code` of abort.rs: 631 for a fallible message
expression, 300 for a non-string message expression. -/
def Error.code (e : Error) : Nat :=
  match e.variant with
  | .fallibleExpr => 631
  | .nonString _ => 300

/-- `DiagnosticMessage::labels` of abort.rs: a primary label stating the
violated rule and a context label; the NonString label renders the
offending shape set. -/
def Error.labels (e : Error) : List Label :=
  match e.variant with
  | .fallibleExpr =>
    [Label.primary "abort only accepts an infallible expression argument" e.expr_span,
     Label.context "handle errors before using the expression as an abort message"
       e.expr_span]
  | .nonString kind =>
    [Label.primary "abort only accepts an expression argument resolving to a string"
       e.expr_span,
     Label.context ("this expression resolves to " ++ kind.display) e.expr_span]

/-- `DiagnosticMessage::notes` of abort.rs. -/
def Error.notes (e : Error) : List Note :=
  match e.variant with
  | .fallibleExpr => [Note.seeErrorDocs]
  | .nonString _ =>
    [Note.coerceValue,
     Note.seeDocs "type coercion" "https://vrl.dev/functions/#coerce-functions"]

/-- The message computation performed by scalar `Abort::resolve` before the
final Abort error is built: no message expression yields no message;
otherwise the expression is resolved and converted, any failure being kept
as that failure. -/
def Abort.messageResult (a : Abort) (ctx : Context) :
    Except ExpressionError (Option String) :=
  match a.message with
  | none => .ok none
  | some expr =>
    match (expr.resolve ctx).1 with
    | .error e => .error e
    | .ok v =>
      match v.try_bytes_utf8_lossy with
      | .error e => .error e
      | .ok s => .ok (some s)

/-- The slot contents after the message expression (if any) has been
batch-resolved: the input slots unchanged when there is no message
expression. -/
def Abort.innerVals (a : Abort) (vals : List Resolved) : List Resolved :=
  match a.message with
  | some expr => expr.resolve_batch vals
  | none => vals

/-- The per-slot outcome function of `Abort::resolve_batch`, applied to the
slot contents left by the message expression. -/
def Abort.batchOutcome (a : Abort) (r : Resolved) : Resolved :=
  match a.message with
  | none => .error (.abort a.span none)
  | some _ => slotAbort a.span (slotMessage r)

/-- Zipping a list with a mapped copy of itself and keeping only the mapped
component is a plain map. -/
theorem map_zip_slotAbort (span : Span) (l : List Resolved)
    (f : Resolved → Except ExpressionError (Option String)) :
    ((l.zip (l.map f)).map fun p => slotAbort span p.2) =
      l.map fun r => slotAbort span (f r) := by
  induction l with
  | nil => rfl
  | cons a t ih => simp only [List.map_cons, List.zip_cons_cons, ih]

/-- Scalar resolve characterized by the message computation: an Abort error
when the message computation succeeds, the inner error itself when it
fails. -/
theorem Abort.resolve_fst_eq (a : Abort) (ctx : Context) :
    (a.resolve ctx).1 = slotAbort a.span (a.messageResult ctx) := by
  obtain ⟨sp, msg⟩ := a
  cases msg with
  | none => rfl
  | some expr =>
    simp only [Abort.resolve, Abort.messageResult]
    cases h : expr.resolve ctx with
    | mk r c =>
      cases r with
      | error e => simp [slotAbort]
      | ok v =>
        cases hb : v.try_bytes_utf8_lossy with
        | error e => simp [slotAbort, hb]
        | ok s => simp [slotAbort, hb]

/-- Batch resolve characterized as a per-slot map over the slot contents
left by the message expression. -/
theorem Abort.resolve_batch_eq_map (a : Abort) (ctx : BatchContext) :
    (a.resolve_batch ctx).resolved_values =
      (a.innerVals ctx.resolved_values).map a.batchOutcome := by
  obtain ⟨sp, msg⟩ := a
  cases msg with
  | none =>
    show ((ctx.resolved_values.zip
        (ctx.resolved_values.map fun _ => .ok none)).map
        fun p => slotAbort sp p.2) = _
    rw [map_zip_slotAbort]
    rfl
  | some expr =>
    show (((expr.resolve_batch ctx.resolved_values).zip
        ((expr.resolve_batch ctx.resolved_values).map slotMessage)).map
        fun p => slotAbort sp p.2) = _
    rw [map_zip_slotAbort]
    rfl

/-- A concrete span for the abort construct itself. -/
def span0 : Span := ⟨0, 5⟩

/-- A concrete span for a message expression. -/
def spanM : Span := ⟨6, 11⟩

/-- A concrete compile-time state. -/
def state0 : LocalEnv × ExternalEnv := (⟨⟩, ⟨⟩)

/-- A concrete single-record context. -/
def ctx0 : Context := ⟨.null⟩

/-- The static descriptor "infallible string". -/
def stringTypeDef : TypeDef := ⟨false, ⟨true, false, false, false⟩⟩

/-- A child expression of static type infallible string whose runtime
evaluation nevertheless reports a non-Abort error on every record; the
node contract does not tie runtime outcomes to the static descriptor
(runtime message-computation failures are exactly the case the spec
discusses for constructed Abort nodes). -/
def exprBoom : Expr :=
  { type_def := fun _ => stringTypeDef
    resolve := fun ctx => (.error (.error "boom"), ctx)
    resolve_batch := fun vals => vals.map fun _ => .error (.error "boom") }

/-- An Abort node whose message expression fails at runtime. -/
def abortBoom : Abort := ⟨span0, some exprBoom⟩

/-- A child expression evaluating to the string literal "bye". -/
def exprBye : Expr :=
  { type_def := fun _ => stringTypeDef
    resolve := fun ctx => (.ok (.bytes [98, 121, 101]), ctx)
    resolve_batch := fun vals => vals.map fun _ => .ok (.bytes [98, 121, 101]) }

/-- An Abort node whose message expression is the literal "bye". -/
def abortBye : Abort := ⟨span0, some exprBye⟩

/-- An Abort node without a message expression. -/
def abortNoMsg : Abort := ⟨span0, none⟩

/-- A child expression whose batch evaluation fails on slot 0 only and
evaluates to the string "hi" on every other slot. -/
def exprMixed : Expr :=
  { type_def := fun _ => stringTypeDef
    resolve := fun ctx => (.ok (.bytes [104, 105]), ctx)
    resolve_batch := fun vals =>
      (List.range vals.length).map fun i =>
        if i = 0 then .error (.error "bad record") else .ok (.bytes [104, 105]) }

/-- An Abort node whose message expression fails on slot 0 of any batch. -/
def abortMixed : Abort := ⟨span0, some exprMixed⟩

/-- The static descriptor "fallible integer". -/
def fallibleIntTypeDef : TypeDef := ⟨true, ⟨false, true, false, false⟩⟩

/-- A fallible integer-typed child expression: it violates both static
construction rules at once. -/
def exprFallibleInt : Expr :=
  { type_def := fun _ => fallibleIntTypeDef
    resolve := fun ctx => (.ok (.integer 1), ctx)
    resolve_batch := fun vals => vals.map fun _ => .ok (.integer 1) }

/-- An infallible integer-typed child expression: it violates only the
shape rule. -/
def exprInt : Expr :=
  { type_def := fun _ => ⟨false, ⟨false, true, false, false⟩⟩
    resolve := fun ctx => (.ok (.integer 1), ctx)
    resolve_batch := fun vals => vals.map fun _ => .ok (.integer 1) }

/-- A fallible string-typed child expression: it violates only the
fallibility rule. -/
def exprFallibleStr : Expr :=
  { type_def := fun _ => ⟨true, ⟨true, false, false, false⟩⟩
    resolve := fun ctx => (.ok (.bytes [104, 105]), ctx)
    resolve_batch := fun vals => vals.map fun _ => .ok (.bytes [104, 105]) }

/-- A one-slot batch context. -/
def batch1 : BatchContext := ⟨[.ok .null]⟩

/-- A two-slot batch context. -/
def batch2 : BatchContext := ⟨[.ok .null, .ok .null]⟩

/-- C1 counterexample: a successfully constructed Abort node whose message
expression reports a runtime error; scalar resolve returns that inner error
itself, not the Abort variant. -/
theorem abort_resolve_inner_error_escapes_cex :
    Abort.new span0 (some ⟨spanM, exprBoom⟩) state0 = .ok abortBoom ∧
    (abortBoom.resolve ctx0).1 = .error (.error "boom") ∧
    (ExpressionError.error "boom").isAbort = false :=
  ⟨rfl, rfl, rfl⟩

/-- C1 (amended): scalar resolve returns the Abort variant carrying the
computed message whenever the message computation succeeds (or there is no
message); when evaluating or converting the message expression reports an
inner error, that inner error is returned unchanged instead of being folded
into an Abort outcome. -/
theorem abort_resolve_characterization (a : Abort) (ctx : Context) :
    (a.resolve ctx).1 = slotAbort a.span (a.messageResult ctx) :=
  Abort.resolve_fst_eq a ctx

/-- C2 counterexample: in a one-slot batch whose message computation fails,
the slot ends holding the inner error, not an Abort outcome with no
message. -/
theorem abort_batch_failed_slot_cex :
    Abort.new span0 (some ⟨spanM, exprBoom⟩) state0 = .ok abortBoom ∧
    (abortBoom.resolve_batch batch1).resolved_values = [.error (.error "boom")] ∧
    (ExpressionError.error "boom") ≠ (.abort span0 none) := by
  refine ⟨rfl, by decide, by decide⟩

/-- C2 (amended): after resolve_batch on a node with a message expression,
each slot whose per-record message computation failed holds exactly that
inner error (not an Abort outcome with no message). -/
theorem abort_batch_failed_slot_holds_inner_error
    (a : Abort) (expr : Expr) (ctx : BatchContext) (i : Nat) (e : ExpressionError)
    (hm : a.message = some expr)
    (hfail : ((expr.resolve_batch ctx.resolved_values)[i]?).map slotMessage
      = some (.error e)) :
    ((a.resolve_batch ctx).resolved_values)[i]? = some (.error e) := by
  rw [Abort.resolve_batch_eq_map]
  simp only [Abort.innerVals, hm]
  rw [List.getElem?_map]
  cases h : (expr.resolve_batch ctx.resolved_values)[i]? with
  | none =>
    rw [h] at hfail
    simp at hfail
  | some r =>
    rw [h] at hfail
    have hr : slotMessage r = Except.error e := Option.some.inj hfail
    show some (a.batchOutcome r) = some (Except.error e)
    simp only [Abort.batchOutcome, hm, hr, slotAbort]

/-- Witness for C2 at a concrete one-slot batch whose message computation
fails on its only record. -/
theorem abort_batch_failed_slot_holds_inner_error_witness :
    ((abortBoom.resolve_batch batch1).resolved_values)[0]? =
      some (.error (.error "boom")) :=
  abort_batch_failed_slot_holds_inner_error abortBoom exprBoom batch1 0
    (.error "boom") rfl (by decide)

/-- C3 counterexample: in a two-slot batch whose message computation fails
on slot 0 only, slot 0 ends holding the inner error rather than an Abort
outcome, refuting that every slot ends in an Abort outcome. -/
theorem abort_batch_slot_not_abort_cex :
    Abort.new span0 (some ⟨spanM, exprMixed⟩) state0 = .ok abortMixed ∧
    (abortMixed.resolve_batch batch2).resolved_values =
      [.error (.error "bad record"), .error (.abort span0 (some "hi"))] ∧
    (ExpressionError.error "bad record").isAbort = false :=
  ⟨rfl, by decide, rfl⟩

/-- C3 (amended): provided the batch resolve of the message expression preserves
the slot count (the batch-length invariant assumed of every node),
resolve_batch leaves exactly N outcomes with slot order preserved, and each
slot outcome is a function of the inner result of that slot alone: an
Abort carrying the computed message of that slot when the computation
succeeds, the inner error of that slot otherwise. -/
theorem abort_batch_length_order_slots (a : Abort) (ctx : BatchContext)
    (hlen : (a.innerVals ctx.resolved_values).length = ctx.resolved_values.length) :
    ((a.resolve_batch ctx).resolved_values).length = ctx.resolved_values.length ∧
    ∀ i : Nat, ((a.resolve_batch ctx).resolved_values)[i]? =
      ((a.innerVals ctx.resolved_values)[i]?).map a.batchOutcome := by
  constructor
  · rw [Abort.resolve_batch_eq_map, List.length_map, hlen]
  · intro i
    rw [Abort.resolve_batch_eq_map, List.getElem?_map]

/-- Witness for C3 at a concrete two-slot batch with one failing slot. -/
theorem abort_batch_length_order_slots_witness :
    ((abortMixed.resolve_batch batch2).resolved_values).length =
        batch2.resolved_values.length ∧
    ∀ i : Nat, ((abortMixed.resolve_batch batch2).resolved_values)[i]? =
      ((abortMixed.innerVals batch2.resolved_values)[i]?).map
        abortMixed.batchOutcome :=
  abort_batch_length_order_slots abortMixed batch2 (by decide)

/-- C4: a message expression whose static descriptor is fallible is
rejected with the FallibleExpr diagnostic, documentation code 631, and no
node is returned. -/
theorem abort_new_fallible_rejected (span expr_span : Span) (expr : Expr)
    (state : LocalEnv × ExternalEnv)
    (hf : (expr.type_def state).is_fallible = true) :
    Abort.new span (some ⟨expr_span, expr⟩) state =
      .error ⟨.fallibleExpr, expr_span⟩ ∧
    Error.code ⟨.fallibleExpr, expr_span⟩ = 631 := by
  refine ⟨?_, rfl⟩
  simp [Abort.new, Node.take, hf]

/-- Witness for C4 at a concrete fallible string-typed message
expression. -/
theorem abort_new_fallible_rejected_witness :
    Abort.new span0 (some ⟨spanM, exprFallibleStr⟩) state0 =
      .error ⟨.fallibleExpr, spanM⟩ ∧
    Error.code ⟨.fallibleExpr, spanM⟩ = 631 :=
  abort_new_fallible_rejected span0 spanM exprFallibleStr state0 rfl

/-- C5 counterexample: a (fallible) message expression whose shape set
excludes string is rejected with the FallibleExpr diagnostic of code 631
rather than the NonString diagnostic, refuting the claim for every
expression whose shape set excludes string. -/
theorem abort_new_nonstring_overlap_cex :
    (exprFallibleInt.type_def state0).is_bytes = false ∧
    Abort.new span0 (some ⟨spanM, exprFallibleInt⟩) state0 =
      .error ⟨.fallibleExpr, spanM⟩ ∧
    Error.code ⟨.fallibleExpr, spanM⟩ = 631 ∧
    ErrorVariant.fallibleExpr ≠
      ErrorVariant.nonString ((exprFallibleInt.type_def state0).into_kind) :=
  ⟨rfl, rfl, rfl, by decide⟩

/-- C5 (amended): a message expression whose static descriptor is
infallible but whose shape set is not exclusively string is rejected with
the NonString diagnostic carrying the offending shape set, documentation
code 300, with the shape rendered in the context label, and no node is
returned. -/
theorem abort_new_infallible_nonstring_rejected (span expr_span : Span)
    (expr : Expr) (state : LocalEnv × ExternalEnv)
    (hf : (expr.type_def state).is_fallible = false)
    (hs : (expr.type_def state).is_bytes = false) :
    Abort.new span (some ⟨expr_span, expr⟩) state =
      .error ⟨.nonString (expr.type_def state).into_kind, expr_span⟩ ∧
    Error.code ⟨.nonString (expr.type_def state).into_kind, expr_span⟩ = 300 ∧
    Error.labels ⟨.nonString (expr.type_def state).into_kind, expr_span⟩ =
      [Label.primary
        "abort only accepts an expression argument resolving to a string"
        expr_span,
       Label.context
        ("this expression resolves to " ++
          ((expr.type_def state).into_kind).display)
        expr_span] := by
  refine ⟨?_, rfl, rfl⟩
  simp [Abort.new, Node.take, hf, hs]

/-- Witness for C5 at a concrete infallible integer-typed message
expression. -/
theorem abort_new_infallible_nonstring_rejected_witness :
    Abort.new span0 (some ⟨spanM, exprInt⟩) state0 =
      .error ⟨.nonString (exprInt.type_def state0).into_kind, spanM⟩ ∧
    Error.code ⟨.nonString (exprInt.type_def state0).into_kind, spanM⟩ = 300 ∧
    Error.labels ⟨.nonString (exprInt.type_def state0).into_kind, spanM⟩ =
      [Label.primary
        "abort only accepts an expression argument resolving to a string"
        spanM,
       Label.context
        ("this expression resolves to " ++
          ((exprInt.type_def state0).into_kind).display)
        spanM] :=
  abort_new_infallible_nonstring_rejected span0 spanM exprInt state0 rfl rfl

/-- C6: for every Abort node and every compile-time state, type_def is the
"never" descriptor with the fallibility flag cleared, independent of the
message expression. -/
theorem abort_type_def_never_infallible (a : Abort)
    (state : LocalEnv × ExternalEnv) :
    a.type_def state = TypeDef.never.infallible ∧
    (a.type_def state).kind = Kind.never ∧
    (a.type_def state).is_fallible = false :=
  ⟨rfl, rfl, rfl⟩

/-- C7: a message-less Abort node resolves to the Abort error with no
message on any context; a node whose message expression resolves to a
string value resolves to the Abort error whose message is the lossy UTF-8
conversion of that value. -/
theorem abort_resolve_message_semantics (a : Abort) (ctx : Context) :
    (a.message = none → (a.resolve ctx).1 = .error (.abort a.span none)) ∧
    (∀ (expr : Expr) (b : List Nat), a.message = some expr →
      (expr.resolve ctx).1 = .ok (.bytes b) →
      (a.resolve ctx).1 = .error (.abort a.span (some (fromUtf8Lossy b)))) := by
  constructor
  · intro h
    rw [Abort.resolve_fst_eq]
    simp [Abort.messageResult, h, slotAbort]
  · intro expr b hm hr
    rw [Abort.resolve_fst_eq]
    simp [Abort.messageResult, hm, hr, Value.try_bytes_utf8_lossy, slotAbort]

/-- Witness for C7: a concrete message-less node and a concrete node whose
message expression is the string literal "bye". -/
theorem abort_resolve_message_semantics_witness :
    (abortNoMsg.resolve ctx0).1 = .error (.abort abortNoMsg.span none) ∧
    (abortBye.resolve ctx0).1 =
      .error (.abort abortBye.span (some (fromUtf8Lossy [98, 121, 101]))) ∧
    fromUtf8Lossy [98, 121, 101] = "bye" :=
  ⟨(abort_resolve_message_semantics abortNoMsg ctx0).1 rfl,
   (abort_resolve_message_semantics abortBye ctx0).2 exprBye [98, 121, 101] rfl rfl,
   by decide⟩

/-- C8: scalar resolve and batch resolve are deterministic functions of the
node and the context: equal contexts yield equal outcomes. -/
theorem abort_resolve_deterministic (a : Abort) (c1 c2 : Context)
    (b1 b2 : BatchContext) (hc : c1 = c2) (hb : b1 = b2) :
    a.resolve c1 = a.resolve c2 ∧ a.resolve_batch b1 = a.resolve_batch b2 := by
  subst hc
  subst hb
  exact ⟨rfl, rfl⟩

/-- Witness for C8 at a concrete node, context and batch. -/
theorem abort_resolve_deterministic_witness :
    abortBye.resolve ctx0 = abortBye.resolve ctx0 ∧
    abortBye.resolve_batch batch1 = abortBye.resolve_batch batch1 :=
  abort_resolve_deterministic abortBye ctx0 ctx0 batch1 batch1 rfl rfl

/-- C9: a message expression violating both static rules (fallible and
shape set excluding string) is rejected with the FallibleExpr diagnostic of
code 631, never the NonString diagnostic: the fallibility check takes
priority. -/
theorem abort_new_fallible_priority (span expr_span : Span) (expr : Expr)
    (state : LocalEnv × ExternalEnv)
    (hf : (expr.type_def state).is_fallible = true)
    (_hs : (expr.type_def state).is_bytes = false) :
    Abort.new span (some ⟨expr_span, expr⟩) state =
      .error ⟨.fallibleExpr, expr_span⟩ ∧
    Error.code ⟨.fallibleExpr, expr_span⟩ = 631 ∧
    ∀ k : Kind, ErrorVariant.fallibleExpr ≠ ErrorVariant.nonString k := by
  refine ⟨?_, rfl, fun k h => by cases h⟩
  simp [Abort.new, Node.take, hf]

/-- Witness for C9 at a concrete fallible integer-typed message
expression. -/
theorem abort_new_fallible_priority_witness :
    Abort.new span0 (some ⟨spanM, exprFallibleInt⟩) state0 =
      .error ⟨.fallibleExpr, spanM⟩ ∧
    Error.code ⟨.fallibleExpr, spanM⟩ = 631 ∧
    ∀ k : Kind, ErrorVariant.fallibleExpr ≠ ErrorVariant.nonString k :=
  abort_new_fallible_priority span0 spanM exprFallibleInt state0 rfl rfl

/-- C10: construction with no message expression always succeeds, for every
span and every state, and yields the node with message None. -/
theorem abort_new_no_message_succeeds (span : Span)
    (state : LocalEnv × ExternalEnv) :
    Abort.new span none state = .ok ⟨span, none⟩ :=
  rfl

end Vrl
